import Mathlib

set_option maxRecDepth 8000

/-!
Verification of the `sftps` FTP/FTPS client engine (`ftp.go`).

The numeric helpers (`ds2h`, `h2i`, `getSplitPorts`), the PASV reply
parsing, and the session operations (`connect`, `auth`, `options`,
`list`, `download`, `upload`, `quit`) are embedded as executable Lean
functions.  Network, file-system and TLS effects are supplied by an
explicit environment record, so each operation is a pure function of
the session parameters and that environment.
-/

namespace Sftps

/- ### Numeric helpers

Faithful embeddings of `fmt.Sprintf` with the `%x` / `%d` verbs on a
machine integer and of `strconv.Atoi` / `strconv.ParseInt(s, 16, 64)`,
as used by `ftp.go` lines 239-288.  Strings of hexadecimal and decimal
digits are modelled as Lean `String`s over their ASCII characters. -/

/-- The character printed by Go for one hexadecimal digit (lower case,
as produced by the `%x` verb). -/
def hexChar (d : Nat) : Char :=
  if d < 10 then Char.ofNat (48 + d) else Char.ofNat (87 + d)

/-- Most-significant-first digit list of a positive natural number in
a base, computed with structural fuel so that it evaluates inside the
kernel; with fuel at least `n` it agrees with `Nat.digits` reversed. -/
def digitsRev (base : Nat) : Nat → Nat → List Nat
  | _, 0 => []
  | 0, _ + 1 => []
  | fuel + 1, n + 1 => digitsRev base fuel ((n + 1) / base) ++ [(n + 1) % base]

/-- Most-significant-first hexadecimal digit list of a natural number;
`0` prints as the single digit `0`, matching `fmt.Sprintf ("%x", 0)`. -/
def hexDigits (n : Nat) : List Nat :=
  if n = 0 then [0] else digitsRev 16 n n

/-- `fmt.Sprintf` with verb `%x` on a non-negative integer. -/
def toHex (n : Nat) : String := String.mk ((hexDigits n).map hexChar)

/-- The character printed by Go for one decimal digit. -/
def decChar (d : Nat) : Char := Char.ofNat (48 + d)

/-- Most-significant-first decimal digit list of a natural number. -/
def decDigits (n : Nat) : List Nat :=
  if n = 0 then [0] else digitsRev 10 n n

/-- `fmt.Sprintf` with verb `%d` on a non-negative integer. -/
def toDec (n : Nat) : String := String.mk ((decDigits n).map decChar)

/-- `fmt.Sprintf` with verb `%d` on a (possibly negative) integer. -/
def intToDec (i : Int) : String :=
  if i < 0 then "-" ++ toDec i.natAbs else toDec i.toNat

/-- `fmt.Sprintf` with verb `%x` on a (possibly negative) integer. -/
def intToHex (i : Int) : String :=
  if i < 0 then "-" ++ toHex i.natAbs else toHex i.toNat

/-- Value of one hexadecimal digit character, upper or lower case,
as accepted by `strconv.ParseInt` with base 16. -/
def parseHexDigit (c : Char) : Option Nat :=
  if 48 ≤ c.toNat ∧ c.toNat ≤ 57 then some (c.toNat - 48)
  else if 97 ≤ c.toNat ∧ c.toNat ≤ 102 then some (c.toNat - 87)
  else if 65 ≤ c.toNat ∧ c.toNat ≤ 70 then some (c.toNat - 55)
  else none

/-- Value of one decimal digit character. -/
def parseDecDigit (c : Char) : Option Nat :=
  if 48 ≤ c.toNat ∧ c.toNat ≤ 57 then some (c.toNat - 48) else none

/-- Accumulating digit parser shared by the base-10 and base-16
integer parsers: fails on the first non-digit character. -/
def parseDigitsAux (base : Nat) (dig : Char → Option Nat) :
    Nat → List Char → Option Nat
  | a, [] => some a
  | a, c :: cs =>
    match dig c with
    | some d => parseDigitsAux base dig (base * a + d) cs
    | none => none

/-- The largest value representable by Go's `int64`. -/
def maxInt64 : Nat := 2 ^ 63 - 1

/-- `strconv.ParseInt(s, base, 64)`: an optional sign followed by a
non-empty run of digits of the base, rejecting values outside the
`int64` range. -/
def parseIntBase (base : Nat) (dig : Char → Option Nat) (s : String) :
    Option Int :=
  match s.data with
  | [] => none
  | c :: cs =>
    if c = '-' then
      if cs = [] then none
      else
        match parseDigitsAux base dig 0 cs with
        | some n => if n ≤ 2 ^ 63 then some (-(n : Int)) else none
        | none => none
    else if c = '+' then
      if cs = [] then none
      else
        match parseDigitsAux base dig 0 cs with
        | some n => if n ≤ maxInt64 then some ((n : Int)) else none
        | none => none
    else
      match parseDigitsAux base dig 0 (c :: cs) with
      | some n => if n ≤ maxInt64 then some ((n : Int)) else none
      | none => none

/-- `strconv.ParseInt(s, 16, 64)`. -/
def parseHexInt (s : String) : Option Int := parseIntBase 16 parseHexDigit s

/-- `strconv.Atoi(s)` on a 64-bit platform. -/
def parseDecInt (s : String) : Option Int := parseIntBase 10 parseDecDigit s

/-- `ftp.go` lines 248-255, `h2i`: parses a hexadecimal string.  The
parse error is assigned to a fresh local variable `e`, so the named
return `err` is always `nil`, and on a parse failure the zero value of
`res` is returned. -/
def h2i (hex : String) : Int × Option String :=
  match parseHexInt hex with
  | some r => (r, none)
  | none => (0, none)

/-- The integer `h2i` reports (its error component is always `none`). -/
def h2iVal (hex : String) : Int := (h2i hex).1

/-- `ftp.go` lines 239-246, `ds2h`: decimal string to hexadecimal
string via `strconv.Atoi` and `fmt.Sprintf ("%x", p)`. -/
def ds2h (dec : String) : Except String String :=
  match parseDecInt dec with
  | none => Except.error "strconv.Atoi: parsing: invalid syntax"
  | some p => Except.ok (intToHex p)

/-- Go byte-slicing `s[a:b]` on an ASCII string. -/
def strSlice (s : String) (a b : Nat) : String :=
  String.mk ((s.data.drop a).take (b - a))

/-- `ftp.go` lines 257-288, `getSplitPorts`: formats the configured
listen port in hexadecimal and splits the digit string by its length
(the Go `switch len(hex)`), parsing each half back with `h2i`.  The
listen port is a port number, hence modelled as a natural number. -/
def getSplitPorts (listenPort : Nat) : Except String (Int × Int) :=
  let hex := toHex listenPort
  if hex.length = 1 ∨ hex.length = 2 then
    Except.ok (0, h2iVal hex)
  else if hex.length = 3 then
    Except.ok (h2iVal (strSlice hex 0 1), h2iVal (strSlice hex 1 3))
  else if hex.length = 4 then
    Except.ok (h2iVal (strSlice hex 0 2), h2iVal (strSlice hex 2 4))
  else
    Except.error "The Port Number could not converted to the Parameter Format for the Listen Function."

/- ### Session data model -/

/-- Modelled from the spec: the two security modes of §3 (the constant
declarations live outside `src/`; only their distinctness matters). -/
def IMPLICIT : Nat := 1

/-- Modelled from the spec: the explicit security mode constant of §3. -/
def EXPLICIT : Nat := 2

/-- Modelled from the spec: the initial session state of §3. -/
def OFFLINE : Nat := 0

/-- Modelled from the spec: the connected session state of §3. -/
def ONLINE : Nat := 1

/-- Modelled from the spec: the download transfer direction of §4.4. -/
def DOWNLOAD : Nat := 0

/-- Modelled from the spec: the upload transfer direction of §4.4. -/
def UPLOAD : Nat := 1

/-- Modelled from the spec: one control-channel response record (§3);
the struct declaration lives outside `src/`.  `command` is empty for
unsolicited and greeting responses. -/
structure FtpResponse where
  command : String
  code : Nat
  msg : String
deriving DecidableEq

/-- Modelled from the spec: the externally supplied session parameters
of §3 and §6; the struct declaration lives outside `src/`. -/
structure ftpParameters where
  host : String
  port : Nat
  user : String
  pass : String
  secure : Bool
  secureMode : Nat
  cert : String
  key : String
  rootCA : String
  alwaysTrust : Bool
  passive : Bool
  listenPort : Nat
  keepAlive : Bool
deriving DecidableEq

/-- `ftp.go` lines 19-25: the session record.  The transport handles
live in the effect environment; the claim-relevant fields are the
parameter reference and `State`. -/
structure Ftp where
  params : ftpParameters
  State : Nat
deriving DecidableEq

/-- `ftp.go` lines 27-34, `newFtp`. -/
def newFtp (p : ftpParameters) : Ftp := ⟨p, OFFLINE⟩

/-- Result of a Go call that can return normally, return a non-nil
error, or panic. -/
inductive Outcome (α : Type) where
  | ok (a : α)
  | err (e : String)
  | panic (m : String)
deriving DecidableEq

/-- The untyped data-channel value handed from the negotiator to the
transfer engine: a dialed connection (passive mode) or a listening
socket (active mode), distinguished at run time by a type test. -/
inductive DataChannel where
  | conn (c : Nat)
  | listener (l : Nat)
deriving DecidableEq

/-- The effect environment: the behaviour of the server, the network,
TLS material and the local file system during one session.  Each field
models one effectful call of `ftp.go`; `Except.error` is a non-nil Go
error.  Connections, listeners, certificates and files are named by
numbers. -/
structure Env where
  /-- `ctrlConn.Cmd` followed by `ctrlConn.ReadResponse code`: the
  code and message answered to one command, or an I/O or
  status-mismatch error. -/
  exec : String → Nat → Except String (Nat × String)
  /-- a bare `ctrlConn.ReadResponse code` (greeting, 226 confirmation). -/
  readResponse : Nat → Except String (Nat × String)
  /-- `net.LookupIP`: the first resolved address of a host. -/
  lookupIP : String → Except String String
  /-- `net.Dial` / `dialer.Dial` on an address. -/
  dial : String → Except String Nat
  /-- `tls.DialWithDialer` (implicit mode). -/
  tlsDial : String → Except String Nat
  /-- `net.Listen`. -/
  listen : String → Except String Nat
  /-- `listener.Accept`. -/
  accept : Nat → Except String Nat
  /-- `getLocalIP` (`ftp.go` lines 220-237): the first non-loopback
  IPv4 address, or an error when none exists. -/
  localIP : Except String String
  /-- `tls.LoadX509KeyPair`. -/
  loadKeyPair : String → String → Except String Nat
  /-- `ioutil.ReadFile`. -/
  readFile : String → Except String (List Nat)
  /-- `x509.CertPool.AppendCertsFromPEM`: whether the PEM bytes parse. -/
  appendCertsOk : List Nat → Bool
  /-- `ioutil.ReadAll` over the (possibly TLS-wrapped) data channel. -/
  readAll : Nat → Except String String
  /-- `os.Create`. -/
  createFile : String → Except String Nat
  /-- `os.Open`. -/
  openFile : String → Except String Nat
  /-- `io.Copy` writer reader: the transferred byte count. -/
  copy : Nat → Nat → Except String Int

/-- The claim-relevant fields of the `tls.Config` assembled by
`getTLSConfig`: what certificate pair was loaded, the contents of the
`RootCAs` and `ClientCAs` pools, and the verification flag.  The
constant `ClientAuth` and `CipherSuites` assignments of the source are
not tracked. -/
structure TLSConfig where
  certificates : Option Nat
  rootCAs : Option (List (List Nat))
  clientCAs : Option (List (List Nat))
  insecureSkipVerify : Bool
deriving DecidableEq

/- ### Transport, command engine and negotiation -/

/-- `ftp.go` lines 93-137, `getTLSConfig`: loads a client certificate
pair only when both the certificate and the key path are non-empty;
inside that branch, when the root-CA path is non-empty it reads the
fixed file path `./cert/rcaPem.pem`, appends the PEM to the pool only
under the always-trust flag (panicking when the PEM does not parse),
and assigns the pool to `RootCAs`; the (possibly empty) pool is always
assigned to `ClientCAs` in the certificate branch. -/
def getTLSConfig (params : ftpParameters) (env : Env) : Outcome TLSConfig :=
  if params.cert ≠ "" ∧ params.key ≠ "" then
    match env.loadKeyPair params.cert params.key with
    | Except.error e => Outcome.err e
    | Except.ok certPair =>
      if params.rootCA ≠ "" then
        match env.readFile "./cert/rcaPem.pem" with
        | Except.error e => Outcome.err e
        | Except.ok rcaPem =>
          if params.alwaysTrust ∧ env.appendCertsOk rcaPem = false then
            Outcome.panic "Failed to parse the Root Certificate"
          else
            let pool := if params.alwaysTrust then [rcaPem] else []
            Outcome.ok ⟨some certPair, some pool, some pool, params.alwaysTrust⟩
      else
        Outcome.ok ⟨some certPair, none, some [], params.alwaysTrust⟩
  else
    Outcome.ok ⟨none, none, none, params.alwaysTrust⟩

/-- `ftp.go` lines 169-187, `Command`: one command/response round
trip; the response record carries the command text that produced it. -/
def command (env : Env) (cmd : String) (code : Nat) : Except String FtpResponse :=
  match env.exec cmd code with
  | Except.error e => Except.error e
  | Except.ok cm => Except.ok ⟨cmd, cm.1, cm.2⟩

/-- `ftp.go` lines 83-91, `secureUpgrade`: builds the TLS
configuration and wraps the control socket in place; only the
configuration step can fail. -/
def secureUpgrade (params : ftpParameters) (env : Env) : Outcome Unit :=
  match getTLSConfig params env with
  | Outcome.err e => Outcome.err e
  | Outcome.panic m => Outcome.panic m
  | Outcome.ok _ => Outcome.ok ()

/-- `ftp.go` lines 36-81, `connect`, dial phase: TLS-wrapped from the
first byte when secure and implicit, plain otherwise.  Parsing of the
fixed `TIMEOUT` and `KEEPALIVE` duration constants is assumed to
succeed. -/
def connectDial (ftp : Ftp) (env : Env) (addr : String) : Outcome Nat :=
  if ftp.params.secure = true ∧ ftp.params.secureMode = IMPLICIT then
    match getTLSConfig ftp.params env with
    | Outcome.err e => Outcome.err e
    | Outcome.panic m => Outcome.panic m
    | Outcome.ok _ =>
      match env.tlsDial addr with
      | Except.error e => Outcome.err e
      | Except.ok c => Outcome.ok c
  else
    match env.dial addr with
    | Except.error e => Outcome.err e
    | Except.ok c => Outcome.ok c

/-- `ftp.go` lines 36-81, `connect`, continued: after the dial phase
the 220 greeting is read, and `State` becomes `ONLINE` only then. -/
def connect (ftp : Ftp) (env : Env) : Ftp × Outcome FtpResponse :=
  match env.lookupIP ftp.params.host with
  | Except.error e => (ftp, Outcome.err e)
  | Except.ok ip =>
    match connectDial ftp env (ip ++ ":" ++ toDec ftp.params.port) with
    | Outcome.err e => (ftp, Outcome.err e)
    | Outcome.panic m => (ftp, Outcome.panic m)
    | Outcome.ok _ =>
      match env.readResponse 220 with
      | Except.error e => (ftp, Outcome.err e)
      | Except.ok cm => ({ ftp with State := ONLINE }, Outcome.ok ⟨"", cm.1, cm.2⟩)

/-- Result of a composite session operation: the session record as
left by the operation, the command lines issued on the control
channel in order, the accumulated response list, the extra result
value, and how the operation ended. -/
structure OpOut (α : Type) where
  ftp : Ftp
  trace : List String
  res : List FtpResponse
  val : α
  fail : Outcome Unit
deriving DecidableEq

/-- `ftp.go` lines 139-167, `auth`: optional `AUTH TLS` + in-place TLS
upgrade in explicit secure mode, then `USER` and `PASS`. -/
def auth (ftp : Ftp) (env : Env) : OpOut Unit :=
  let userCmd := "USER " ++ ftp.params.user
  let passCmd := "PASS " ++ ftp.params.pass
  let step2 : List String → List FtpResponse → OpOut Unit := fun tr acc =>
    match command env userCmd 331 with
    | Except.error e => ⟨ftp, tr ++ [userCmd], acc, (), Outcome.err e⟩
    | Except.ok r2 =>
      match command env passCmd 230 with
      | Except.error e => ⟨ftp, tr ++ [userCmd, passCmd], acc ++ [r2], (), Outcome.err e⟩
      | Except.ok r3 => ⟨ftp, tr ++ [userCmd, passCmd], acc ++ [r2, r3], (), Outcome.ok ()⟩
  if ftp.params.secure = true ∧ ftp.params.secureMode = EXPLICIT then
    match command env "AUTH TLS" 234 with
    | Except.error e => ⟨ftp, ["AUTH TLS"], [], (), Outcome.err e⟩
    | Except.ok r1 =>
      match secureUpgrade ftp.params env with
      | Outcome.err e => ⟨ftp, ["AUTH TLS"], [r1], (), Outcome.err e⟩
      | Outcome.panic m => ⟨ftp, ["AUTH TLS"], [r1], (), Outcome.panic m⟩
      | Outcome.ok _ => step2 ["AUTH TLS"] [r1]
  else step2 [] []

/-- `ftp.go` lines 189-218, `options`: `SYST`, `FEAT`,
`OPTS UTF8 ON`, then `PROT P` only when secure, then `TYPE I`. -/
def options (ftp : Ftp) (env : Env) : OpOut Unit :=
  let fin : List String → List FtpResponse → OpOut Unit := fun tr acc =>
    match command env "TYPE I" 200 with
    | Except.error e => ⟨ftp, tr ++ ["TYPE I"], acc, (), Outcome.err e⟩
    | Except.ok r => ⟨ftp, tr ++ ["TYPE I"], acc ++ [r], (), Outcome.ok ()⟩
  match command env "SYST" 215 with
  | Except.error e => ⟨ftp, ["SYST"], [], (), Outcome.err e⟩
  | Except.ok r1 =>
    match command env "FEAT" 211 with
    | Except.error e => ⟨ftp, ["SYST", "FEAT"], [r1], (), Outcome.err e⟩
    | Except.ok r2 =>
      match command env "OPTS UTF8 ON" 200 with
      | Except.error e => ⟨ftp, ["SYST", "FEAT", "OPTS UTF8 ON"], [r1, r2], (), Outcome.err e⟩
      | Except.ok r3 =>
        if ftp.params.secure then
          match command env "PROT P" 200 with
          | Except.error e => ⟨ftp, ["SYST", "FEAT", "OPTS UTF8 ON", "PROT P"], [r1, r2, r3], (), Outcome.err e⟩
          | Except.ok r4 => fin ["SYST", "FEAT", "OPTS UTF8 ON", "PROT P"] [r1, r2, r3, r4]
        else fin ["SYST", "FEAT", "OPTS UTF8 ON"] [r1, r2, r3]

/- ### The PASV reply pattern

`regexp.MustCompile` of six comma-separated lazy digit groups.  A lazy
digit group that must be followed by a comma can only stop at the end
of its maximal digit run (a comma cannot occur inside a run), so the
leftmost match consists of the first six maximal digit runs separated
by single commas, the last group taken greedily; the scan below walks
the starting positions left to right exactly as the RE2 search does. -/

/-- The regexp character class of decimal digits, as a Bool. -/
def isDigitChar (c : Char) : Bool := decide (48 ≤ c.toNat ∧ c.toNat ≤ 57)

/-- The maximal leading digit run and the rest; fails when the first
character is not a digit (each capture group is a non-empty run). -/
def grabRun (cs : List Char) : Option (List Char × List Char) :=
  let r := cs.takeWhile isDigitChar
  if r = [] then none else some (r, cs.dropWhile isDigitChar)

/-- Consumes exactly one comma. -/
def expectComma : List Char → Option (List Char)
  | c :: cs => if c = ',' then some cs else none
  | [] => none

/-- The six capture groups of the pattern when a match starts at the
head of the character list. -/
def matchSixAt (cs : List Char) : Option (List String) := do
  let (g1, r1) ← grabRun cs
  let r1c ← expectComma r1
  let (g2, r2) ← grabRun r1c
  let r2c ← expectComma r2
  let (g3, r3) ← grabRun r2c
  let r3c ← expectComma r3
  let (g4, r4) ← grabRun r3c
  let r4c ← expectComma r4
  let (g5, r5) ← grabRun r4c
  let r5c ← expectComma r5
  let (g6, _) ← grabRun r5c
  pure [String.mk g1, String.mk g2, String.mk g3, String.mk g4,
    String.mk g5, String.mk g6]

/-- Leftmost match: the first starting position at which the pattern
matches, scanned left to right. -/
def findSixFrom : List Char → Option (List String)
  | [] => none
  | c :: cs =>
    match matchSixAt (c :: cs) with
    | some g => some g
    | none => findSixFrom cs

/-- The capture groups of the first match of the six-number pattern in
a reply message (`FindAllStringSubmatch` row 0, groups 1-6). -/
def findSix (s : String) : Option (List String) := findSixFrom s.data

/- ### Data channel negotiation and transfers -/

/-- `ftp.go` lines 313-341, `pasv`: issues `PASV`, re-resolves the
control host, extracts the six numbers of the reply message, converts
the two port octet strings through `ds2h`, parses their concatenation
with `h2i`, and dials the resolved host at that port.  Indexing
`matches[0]` of an empty match set is a Go runtime panic. -/
def pasvResult (ftp : Ftp) (env : Env) : Outcome (FtpResponse × DataChannel) :=
  match command env "PASV" 227 with
  | Except.error e => Outcome.err e
  | Except.ok res =>
    match env.lookupIP ftp.params.host with
    | Except.error e => Outcome.err e
    | Except.ok ip =>
      match findSix res.msg with
      | none => Outcome.panic "runtime error: index out of range"
      | some groups =>
        match ds2h (groups.getD 4 "") with
        | Except.error e => Outcome.err e
        | Except.ok hex1 =>
          match ds2h (groups.getD 5 "") with
          | Except.error e => Outcome.err e
          | Except.ok hex2 =>
            match env.dial (ip ++ ":" ++ intToDec (h2iVal (hex1 ++ hex2))) with
            | Except.error e => Outcome.err e
            | Except.ok c => Outcome.ok (res, DataChannel.conn c)

/-- `pasv` issues exactly the single command `PASV` on the control
channel. -/
def pasv (ftp : Ftp) (env : Env) : List String × Outcome (FtpResponse × DataChannel) :=
  (["PASV"], pasvResult ftp env)

/-- `strings.Replace (localIP, ".", ",", -1)`. -/
def dotsToCommas (s : String) : String :=
  String.mk (s.data.map (fun c => if c = '.' then ',' else c))

/-- The command line `fmt.Sprintf ("PORT %s,%d,%d", ip, p1, p2)`. -/
def portCmd (localIP : String) (pp : Int × Int) : String :=
  "PORT " ++ (dotsToCommas localIP ++ "," ++ intToDec pp.1 ++ "," ++ intToDec pp.2)

/-- `ftp.go` lines 290-311, `port`: discovers the local address,
splits the configured listen port into the two `PORT` octets, issues
the `PORT` command and opens the local listener on that port. -/
def port (ftp : Ftp) (env : Env) : List String × Except String (FtpResponse × DataChannel) :=
  match env.localIP with
  | Except.error e => ([], Except.error e)
  | Except.ok localIP =>
    match getSplitPorts ftp.params.listenPort with
    | Except.error e => ([], Except.error e)
    | Except.ok pp =>
      match command env (portCmd localIP pp) 200 with
      | Except.error e => ([portCmd localIP pp], Except.error e)
      | Except.ok res =>
        match env.listen (localIP ++ ":" ++ toDec ftp.params.listenPort) with
        | Except.error e => ([portCmd localIP pp], Except.error e)
        | Except.ok l => ([portCmd localIP pp], Except.ok (res, DataChannel.listener l))

/-- `ftp.go` lines 343-397, `readBytes`: resolves the data channel by
a run-time type test against the passive flag (accepting in active
mode), optionally builds the TLS wrapping, drains the channel, and
reads the trailing 226 confirmation (command text empty). -/
def readBytes (ftp : Ftp) (env : Env) (itf : DataChannel) : Outcome (FtpResponse × String) :=
  let step : Nat → Outcome (FtpResponse × String) := fun dataConn =>
    let readStep : Outcome (FtpResponse × String) :=
      match env.readAll dataConn with
      | Except.error e => Outcome.err e
      | Except.ok bytes =>
        match env.readResponse 226 with
        | Except.error e => Outcome.err e
        | Except.ok cm => Outcome.ok (⟨"", cm.1, cm.2⟩, bytes)
    if ftp.params.secure then
      match getTLSConfig ftp.params env with
      | Outcome.err e => Outcome.err e
      | Outcome.panic m => Outcome.panic m
      | Outcome.ok _ => readStep
    else readStep
  if ftp.params.passive then
    match itf with
    | DataChannel.conn c => step c
    | DataChannel.listener _ => Outcome.err "Invalid parameter were bound, net.Conn is not found."
  else
    match itf with
    | DataChannel.listener l =>
      match env.accept l with
      | Except.error e => Outcome.err e
      | Except.ok c => step c
    | DataChannel.conn _ => Outcome.err "Invalid parameter were bound, net.Listener is not found."

/-- `ftp.go` lines 570-641, `fileTransfer`: resolves the data channel
by the same type test, optionally builds the TLS wrapping, opens the
local file (create for download, open for upload), copies to
exhaustion and reads the trailing 226 confirmation. -/
def fileTransfer (ftp : Ftp) (env : Env) (direction : Nat) (uri : String)
    (itf : DataChannel) : Outcome (FtpResponse × Int) :=
  let step : Nat → Outcome (FtpResponse × Int) := fun dataConn =>
    let transfer : Outcome (FtpResponse × Int) :=
      let opened : Except String (Nat × Nat) :=
        if direction = DOWNLOAD then
          match env.createFile uri with
          | Except.error e => Except.error e
          | Except.ok w => Except.ok (dataConn, w)
        else if direction = UPLOAD then
          match env.openFile uri with
          | Except.error e => Except.error e
          | Except.ok r => Except.ok (r, dataConn)
        else
          Except.error "The Argument direction must be the either DOWNLOAD or UPLOAD."
      match opened with
      | Except.error e => Outcome.err e
      | Except.ok rw =>
        match env.copy rw.2 rw.1 with
        | Except.error e => Outcome.err e
        | Except.ok len =>
          match env.readResponse 226 with
          | Except.error e => Outcome.err e
          | Except.ok cm => Outcome.ok (⟨"", cm.1, cm.2⟩, len)
    if ftp.params.secure then
      match getTLSConfig ftp.params env with
      | Outcome.err e => Outcome.err e
      | Outcome.panic m => Outcome.panic m
      | Outcome.ok _ => transfer
    else transfer
  if ftp.params.passive then
    match itf with
    | DataChannel.conn c => step c
    | DataChannel.listener _ => Outcome.err "Invalid parameter were bound, the value must be a net.Conn when the Passive Mode specified by the Parameter."
  else
    match itf with
    | DataChannel.listener l =>
      match env.accept l with
      | Except.error e => Outcome.err e
      | Except.ok c => step c
    | DataChannel.conn _ => Outcome.err "Invalid parameter were bound, the value must be a net.Listener when the Active Mode specified by the Parameter."

/-- `ftp.go` lines 399-414, `quit`: the `QUIT` exchange; the deferred
closes release the transport handles and are not observable here. -/
def quit (env : Env) : Except String FtpResponse := command env "QUIT" 221

/-- The deferred block of `list` / `download` / `upload` (`ftp.go`
lines 419-428, 465-474, 505-514): with keep-alive off, `quit` runs on
every exit path; a successful `quit` overwrites `err` with nil and
appends its response, a failing one overwrites `err` with its own
error; a panic keeps unwinding after the deferred call ran. -/
def withQuit {α : Type} (ftp : Ftp) (env : Env) (body : OpOut α) : OpOut α :=
  if ftp.params.keepAlive then body
  else
    match body.fail with
    | Outcome.panic m =>
      ⟨body.ftp, body.trace ++ ["QUIT"], body.res, body.val, Outcome.panic m⟩
    | _ =>
      match quit env with
      | Except.error e =>
        ⟨body.ftp, body.trace ++ ["QUIT"], body.res, body.val, Outcome.err e⟩
      | Except.ok r =>
        ⟨body.ftp, body.trace ++ ["QUIT"], body.res ++ [r], body.val, Outcome.ok ()⟩

/-- The shared body shape of `list` / `download` / `upload`: negotiate
the data channel (passive or active), issue the operation command
expecting 150, then run the transfer step. -/
def negotiate (ftp : Ftp) (env : Env) : List String × Outcome (FtpResponse × DataChannel) :=
  if ftp.params.passive then pasv ftp env
  else
    match port ftp env with
    | (tr, Except.error e) => (tr, Outcome.err e)
    | (tr, Except.ok rc) => (tr, Outcome.ok rc)

/-- The shared body of `list` / `download` / `upload` after data
channel negotiation: issue the operation command expecting 150, then
run the transfer step, accumulating every response in order.  The
three Go functions are verbatim copies of this shape, differing only
in the command line, the transfer primitive and the zero value of the
extra result. -/
def opBody {α : Type} (ftp : Ftp) (env : Env) (cmd : String) (dflt : α)
    (step : DataChannel → Outcome (FtpResponse × α)) : OpOut α :=
  match negotiate ftp env with
  | (tr, Outcome.err e) => ⟨ftp, tr, [], dflt, Outcome.err e⟩
  | (tr, Outcome.panic m) => ⟨ftp, tr, [], dflt, Outcome.panic m⟩
  | (tr, Outcome.ok (r1, itf)) =>
    match command env cmd 150 with
    | Except.error e => ⟨ftp, tr ++ [cmd], [r1], dflt, Outcome.err e⟩
    | Except.ok r2 =>
      match step itf with
      | Outcome.err e => ⟨ftp, tr ++ [cmd], [r1, r2], dflt, Outcome.err e⟩
      | Outcome.panic m => ⟨ftp, tr ++ [cmd], [r1, r2], dflt, Outcome.panic m⟩
      | Outcome.ok rl => ⟨ftp, tr ++ [cmd], [r1, r2, rl.1], rl.2, Outcome.ok ()⟩

/-- `ftp.go` lines 416-461, `list`, without the deferred `quit`. -/
def listBody (ftp : Ftp) (env : Env) (p : String) : OpOut String :=
  opBody ftp env ("LIST -aL " ++ p) "" (fun itf => readBytes ftp env itf)

/-- `ftp.go` lines 416-461, `list`. -/
def list (ftp : Ftp) (env : Env) (p : String) : OpOut String :=
  withQuit ftp env (listBody ftp env p)

/-- `ftp.go` lines 463-501, `download`, without the deferred `quit`. -/
def downloadBody (ftp : Ftp) (env : Env) (localPath remote : String) : OpOut Int :=
  opBody ftp env ("RETR " ++ remote) 0 (fun itf => fileTransfer ftp env DOWNLOAD localPath itf)

/-- `ftp.go` lines 463-501, `download`. -/
def download (ftp : Ftp) (env : Env) (localPath remote : String) : OpOut Int :=
  withQuit ftp env (downloadBody ftp env localPath remote)

/-- `ftp.go` lines 503-540, `upload`, without the deferred `quit`. -/
def uploadBody (ftp : Ftp) (env : Env) (localPath remote : String) : OpOut Int :=
  opBody ftp env ("STOR " ++ remote) 0 (fun itf => fileTransfer ftp env UPLOAD localPath itf)

/-- `ftp.go` lines 503-540, `upload`. -/
def upload (ftp : Ftp) (env : Env) (localPath remote : String) : OpOut Int :=
  withQuit ftp env (uploadBody ftp env localPath remote)

/- ### Concrete instances used by the verification -/

/-- An environment in which every call succeeds; `PASV` is answered
with a reply carrying six numbers (port octets 19 and 137, hence data
port 5001). -/
def okEnv : Env where
  exec := fun c k =>
    if c = "PASV" then Except.ok (k, "Entering Passive Mode (127,0,0,1,19,137)")
    else Except.ok (k, "ok")
  readResponse := fun k => Except.ok (k, "ok")
  lookupIP := fun _ => Except.ok "192.0.2.1"
  dial := fun _ => Except.ok 1
  tlsDial := fun _ => Except.ok 2
  listen := fun _ => Except.ok 3
  accept := fun _ => Except.ok 4
  localIP := Except.ok "192.0.2.5"
  loadKeyPair := fun _ _ => Except.ok 5
  readFile := fun _ => Except.ok [0]
  appendCertsOk := fun _ => true
  readAll := fun _ => Except.ok "listing"
  createFile := fun _ => Except.ok 6
  openFile := fun _ => Except.ok 7
  copy := fun _ _ => Except.ok 0

/-- Plain passive-mode parameters, keep-alive off. -/
def plainParams : ftpParameters :=
  ⟨"ftp.example.org", 21, "anonymous", "guest", false, 0, "", "", "", false, true, 0, false⟩

/-- A fresh plain session. -/
def plainFtp : Ftp := newFtp plainParams

/-- Explicit-secure passive-mode parameters, keep-alive on. -/
def explicitParams : ftpParameters :=
  ⟨"ftp.example.org", 21, "alice", "secret", true, EXPLICIT, "", "", "", false, true, 0, true⟩

/-- A fresh explicit-secure session. -/
def explicitFtp : Ftp := newFtp explicitParams

/-- An active-mode session whose configured listen port exceeds the
16-bit range. -/
def overPortFtp : Ftp :=
  newFtp ⟨"ftp.example.org", 21, "anonymous", "guest", false, 0, "", "", "", false, false, 70000, false⟩

/-- The environment of the C1 scenario: the server answers `PASV` with
the reply of the claim, and the network accepts a data dial only at
port 3213 of the resolved address. -/
def pasvLowOctetEnv : Env := { okEnv with
  exec := fun c k =>
    if c = "PASV" then Except.ok (k, "Entering Passive Mode (10,0,0,5,200,13)")
    else Except.ok (k, "ok")
  lookupIP := fun _ => Except.ok "198.51.100.7"
  dial := fun a => if a = "198.51.100.7:3213" then Except.ok 9 else Except.error "connection refused" }

/-- The environment of the C7 scenario: the `PASV` reply holds no
six-number group. -/
def pasvNoMatchEnv : Env := { okEnv with
  exec := fun c k =>
    if c = "PASV" then Except.ok (k, "Entering Passive Mode.")
    else Except.ok (k, "ok") }

/-- Parameters carrying a certificate, a key and a custom root-CA
path. -/
def customRootParams : ftpParameters :=
  ⟨"ftp.example.org", 21, "u", "p", true, EXPLICIT, "client.pem", "client.key",
    "/etc/custom-root.pem", false, true, 0, false⟩

/-- An environment whose file system holds only the configured
root-CA file. -/
def customRootOnlyEnv : Env := { okEnv with
  readFile := fun path =>
    if path = "/etc/custom-root.pem" then Except.ok [1]
    else Except.error "open ./cert/rcaPem.pem: no such file or directory" }

/-- An environment whose file system holds only the fixed file
`./cert/rcaPem.pem`. -/
def fixedRootOnlyEnv : Env := { okEnv with
  readFile := fun path =>
    if path = "./cert/rcaPem.pem" then Except.ok [1]
    else Except.error "open: no such file or directory" }

/- ### Arithmetic facts about the digit strings -/

/-- Value of a most-significant-first hexadecimal digit list. -/
def fromHexDigits (L : List Nat) : Nat := L.foldl (fun a d => 16 * a + d) 0

theorem foldl_hex_shift (L : List Nat) :
    ∀ a : Nat, L.foldl (fun x d => 16 * x + d) a =
      a * 16 ^ L.length + fromHexDigits L := by
  induction L with
  | nil => intro a; simp [fromHexDigits]
  | cons d ds ih =>
    intro a
    show ds.foldl (fun x e => 16 * x + e) (16 * a + d) = _
    rw [ih (16 * a + d)]
    have hd : fromHexDigits (d :: ds) =
        d * 16 ^ ds.length + fromHexDigits ds := by
      show ds.foldl (fun x e => 16 * x + e) (16 * 0 + d) = _
      rw [ih (16 * 0 + d)]
      ring_nf
    rw [hd]
    simp [List.length_cons]
    ring

theorem fromHexDigits_append (A B : List Nat) :
    fromHexDigits (A ++ B) =
      fromHexDigits A * 16 ^ B.length + fromHexDigits B := by
  unfold fromHexDigits
  rw [List.foldl_append]
  exact foldl_hex_shift B _

theorem fromHexDigits_reverse (L : List Nat) :
    fromHexDigits L.reverse = Nat.ofDigits 16 L := by
  induction L with
  | nil => simp [fromHexDigits]
  | cons d ds ih =>
    rw [List.reverse_cons, fromHexDigits_append, ih, Nat.ofDigits_cons]
    have : fromHexDigits [d] = d := by simp [fromHexDigits]
    simp [this]
    ring

theorem digitsRev_eq_digits (b : Nat) (hb : 1 < b) :
    ∀ fuel n, n ≤ fuel → digitsRev b fuel n = (Nat.digits b n).reverse := by
  intro fuel
  induction fuel with
  | zero =>
    intro n hn
    interval_cases n
    simp [digitsRev]
  | succ fuel ih =>
    intro n hn
    cases n with
    | zero => simp [digitsRev]
    | succ m =>
      rw [digitsRev, Nat.digits_def' hb (Nat.succ_pos m), List.reverse_cons,
        ih ((m + 1) / b) (by
          have := Nat.div_lt_self (show 0 < m + 1 by omega) hb
          omega)]

/-- The fuel-based digit list agrees with `Nat.digits` reversed. -/
theorem hexDigits_eq (n : Nat) :
    hexDigits n = if n = 0 then [0] else (Nat.digits 16 n).reverse := by
  unfold hexDigits
  by_cases h : n = 0
  · rw [if_pos h, if_pos h]
  · rw [if_neg h, if_neg h, digitsRev_eq_digits 16 (by norm_num) n n le_rfl]

theorem fromHexDigits_hexDigits (n : Nat) :
    fromHexDigits (hexDigits n) = n := by
  rw [hexDigits_eq]
  by_cases h : n = 0
  · subst h; simp [fromHexDigits]
  · rw [if_neg h, fromHexDigits_reverse, Nat.ofDigits_digits]

theorem hexDigits_lt (n : Nat) : ∀ d ∈ hexDigits n, d < 16 := by
  rw [hexDigits_eq]
  by_cases h : n = 0
  · subst h; simp
  · rw [if_neg h]
    intro d hd
    exact Nat.digits_lt_base (by norm_num) (List.mem_reverse.mp hd)

theorem fromHexDigits_lt_pow (L : List Nat) (hL : ∀ d ∈ L, d < 16) :
    fromHexDigits L < 16 ^ L.length := by
  induction L with
  | nil => simp [fromHexDigits]
  | cons d ds ih =>
    have hd : fromHexDigits (d :: ds) =
        d * 16 ^ ds.length + fromHexDigits ds := by
      show ds.foldl (fun x e => 16 * x + e) (16 * 0 + d) = _
      rw [foldl_hex_shift]
      ring_nf
    rw [hd, List.length_cons, pow_succ]
    have h1 : fromHexDigits ds < 16 ^ ds.length :=
      ih (fun d hd => hL d (List.mem_cons_of_mem _ hd))
    have h2 : d < 16 := hL d (List.mem_cons_self _ _)
    calc d * 16 ^ ds.length + fromHexDigits ds
        < d * 16 ^ ds.length + 16 ^ ds.length := by omega
      _ = (d + 1) * 16 ^ ds.length := by ring
      _ ≤ 16 ^ ds.length * 16 := by
          rw [mul_comm (16 ^ ds.length) 16]
          exact Nat.mul_le_mul_right _ (by omega)

theorem hexDigits_ne_nil (n : Nat) : hexDigits n ≠ [] := by
  rw [hexDigits_eq]
  by_cases h : n = 0
  · subst h; simp
  · rw [if_neg h]
    simp [Nat.digits_ne_nil_iff_ne_zero, h]

theorem hexDigits_length_le_iff (n k : Nat) (hk : 0 < k) :
    (hexDigits n).length ≤ k ↔ n < 16 ^ k := by
  rw [hexDigits_eq]
  by_cases h : n = 0
  · subst h
    rw [if_pos rfl]
    simp only [List.length_singleton]
    constructor
    · intro _; exact pow_pos (by norm_num) k
    · intro _; omega
  · rw [if_neg h, List.length_reverse,
      Nat.digits_len 16 n (by norm_num) h,
      Nat.lt_pow_iff_log_lt (b := 16) (by norm_num) h]
    omega

theorem parseHexDigit_hexChar : ∀ d, d < 16 → parseHexDigit (hexChar d) = some d := by
  decide

theorem hexChar_not_sign : ∀ d, d < 16 → hexChar d ≠ '-' ∧ hexChar d ≠ '+' := by
  decide

theorem parseDigitsAux_map_hexChar (L : List Nat) (hL : ∀ d ∈ L, d < 16) :
    ∀ a, parseDigitsAux 16 parseHexDigit a (L.map hexChar) =
      some (L.foldl (fun x d => 16 * x + d) a) := by
  induction L with
  | nil => intro a; rfl
  | cons d ds ih =>
    intro a
    have hd : d < 16 := hL d (List.mem_cons_self _ _)
    show parseDigitsAux 16 parseHexDigit a (hexChar d :: ds.map hexChar) = _
    rw [parseDigitsAux, parseHexDigit_hexChar d hd]
    exact ih (fun e he => hL e (List.mem_cons_of_mem _ he)) _

theorem parseHexInt_map_hexChar (L : List Nat) (hL : ∀ d ∈ L, d < 16)
    (hne : L ≠ []) (hbound : fromHexDigits L ≤ maxInt64) :
    parseHexInt (String.mk (L.map hexChar)) = some ((fromHexDigits L : Int)) := by
  cases L with
  | nil => exact absurd rfl hne
  | cons d ds =>
    have hd : d < 16 := hL d (List.mem_cons_self _ _)
    show parseIntBase 16 parseHexDigit (String.mk (hexChar d :: ds.map hexChar)) = _
    rw [parseIntBase]
    simp only [String.data]
    rw [if_neg (hexChar_not_sign d hd).1, if_neg (hexChar_not_sign d hd).2]
    have hmap : hexChar d :: ds.map hexChar = (d :: ds).map hexChar := rfl
    rw [hmap, parseDigitsAux_map_hexChar (d :: ds) hL 0]
    show (if fromHexDigits (d :: ds) ≤ maxInt64 then _ else _) = _
    rw [if_pos hbound]
    rfl

theorem h2iVal_map_hexChar (L : List Nat) (hL : ∀ d ∈ L, d < 16)
    (hne : L ≠ []) (hbound : fromHexDigits L ≤ maxInt64) :
    h2iVal (String.mk (L.map hexChar)) = (fromHexDigits L : Int) := by
  unfold h2iVal h2i
  rw [parseHexInt_map_hexChar L hL hne hbound]

theorem maxInt64_large : 16 ^ 4 ≤ maxInt64 := by
  unfold maxInt64; norm_num

theorem h2iVal_slice (H : List Nat) (hH : ∀ d ∈ H, d < 16) (a b : Nat)
    (hne : (H.drop a).take (b - a) ≠ []) (hw : b - a ≤ 4) :
    h2iVal (strSlice (String.mk (H.map hexChar)) a b) =
      (fromHexDigits ((H.drop a).take (b - a)) : Int) := by
  have hsub : ∀ d ∈ (H.drop a).take (b - a), d < 16 := fun d hd =>
    hH d (List.mem_of_mem_drop (List.mem_of_mem_take hd))
  have hlen : ((H.drop a).take (b - a)).length ≤ 4 := by
    have := List.length_take (b - a) (H.drop a)
    omega
  have hbound : fromHexDigits ((H.drop a).take (b - a)) ≤ maxInt64 := by
    have h1 := fromHexDigits_lt_pow _ hsub
    have h2 : (16 : Nat) ^ ((H.drop a).take (b - a)).length ≤ 16 ^ 4 :=
      Nat.pow_le_pow_right (by norm_num) hlen
    have := maxInt64_large
    omega
  have hlist : ((H.map hexChar).drop a).take (b - a) =
      ((H.drop a).take (b - a)).map hexChar := by
    rw [List.map_take, List.map_drop]
  have hmk : strSlice (String.mk (H.map hexChar)) a b =
      String.mk (((H.drop a).take (b - a)).map hexChar) := by
    show String.mk (((H.map hexChar).drop a).take (b - a)) = _
    exact congrArg String.mk hlist
  rw [hmk, h2iVal_map_hexChar _ hsub hne hbound]

theorem hexDigits_length_pos (n : Nat) : 0 < (hexDigits n).length :=
  List.length_pos.mpr (hexDigits_ne_nil n)

theorem getSplitPorts_def (p : Nat) :
    getSplitPorts p =
      (if (toHex p).length = 1 ∨ (toHex p).length = 2 then
        Except.ok (0, h2iVal (toHex p))
      else if (toHex p).length = 3 then
        Except.ok (h2iVal (strSlice (toHex p) 0 1), h2iVal (strSlice (toHex p) 1 3))
      else if (toHex p).length = 4 then
        Except.ok (h2iVal (strSlice (toHex p) 0 2), h2iVal (strSlice (toHex p) 2 4))
      else
        Except.error "The Port Number could not converted to the Parameter Format for the Listen Function.") :=
  rfl

/-- C2: for every 16-bit port value p in [0, 65535] set as the local
listen port, `getSplitPorts` returns octets (p1, p2) with
p1 * 256 + p2 = p, and for p < 256 it returns p1 = 0. -/
theorem getSplitPorts_roundtrip (p : Nat) (hp : p ≤ 65535) :
    ∃ p1 p2 : Int, getSplitPorts p = Except.ok (p1, p2) ∧
      p1 * 256 + p2 = (p : Int) ∧ (p < 256 → p1 = 0) := by
  have hlt : ∀ d ∈ hexDigits p, d < 16 := hexDigits_lt p
  have hpos := hexDigits_length_pos p
  have hlen4 : (hexDigits p).length ≤ 4 :=
    (hexDigits_length_le_iff p 4 (by norm_num)).mpr (by norm_num; omega)
  have hval := fromHexDigits_hexDigits p
  have htoHex : toHex p = String.mk ((hexDigits p).map hexChar) := rfl
  have htlen : (toHex p).length = (hexDigits p).length := by
    rw [htoHex]; show ((hexDigits p).map hexChar).length = _
    exact List.length_map ..
  by_cases h256 : p < 256
  · -- one or two hex digit characters: the `case 1, 2` arm
    have hle2 : (hexDigits p).length ≤ 2 :=
      (hexDigits_length_le_iff p 2 (by norm_num)).mpr (by norm_num; omega)
    refine ⟨0, (p : Int), ?_, by ring, fun _ => rfl⟩
    have hcond : (toHex p).length = 1 ∨ (toHex p).length = 2 := by omega
    rw [getSplitPorts_def]
    rw [if_pos hcond, htoHex,
      h2iVal_map_hexChar _ hlt (hexDigits_ne_nil p)
        (by rw [hval]; have := maxInt64_large; omega), hval]
  · by_cases h4096 : p < 4096
    · -- three hex digit characters: the `case 3` arm
      have hle3 : (hexDigits p).length ≤ 3 :=
        (hexDigits_length_le_iff p 3 (by norm_num)).mpr (by norm_num; omega)
      have hgt2 : ¬ (hexDigits p).length ≤ 2 := fun hc =>
        h256 (by have := (hexDigits_length_le_iff p 2 (by norm_num)).mp hc; norm_num at this; omega)
      have hlen : (hexDigits p).length = 3 := by omega
      have hd1 : ((hexDigits p).drop 1).length = 2 := by
        rw [List.length_drop, hlen]
      refine ⟨(fromHexDigits ((hexDigits p).take 1) : Int),
              (fromHexDigits ((hexDigits p).drop 1) : Int), ?_, ?_, fun hc => absurd hc h256⟩
      · rw [getSplitPorts_def]
        rw [if_neg (by omega), if_pos (by omega), htoHex]
        rw [h2iVal_slice _ hlt 0 1 (by
            rw [List.drop_zero]
            have : ((hexDigits p).take 1).length = 1 := by
              rw [List.length_take]; omega
            intro hc; rw [hc] at this; simp at this) (by norm_num)]
        rw [h2iVal_slice _ hlt 1 3 (by
            show ((hexDigits p).drop 1).take 2 ≠ []
            rw [List.take_of_length_le (by omega)]
            intro hc; rw [hc] at hd1; simp at hd1) (by norm_num)]
        rw [List.drop_zero]
        rw [show (3 : Nat) - 1 = 2 from rfl, List.take_of_length_le (le_of_eq hd1)]
      · have happ := fromHexDigits_append ((hexDigits p).take 1) ((hexDigits p).drop 1)
        rw [List.take_append_drop, hval, hd1] at happ
        rw [show (16 : Nat) ^ 2 = 256 from by norm_num] at happ
        have hnat : fromHexDigits ((hexDigits p).take 1) * 256 +
            fromHexDigits ((hexDigits p).drop 1) = p := by omega
        exact_mod_cast hnat
    · -- four hex digit characters: the `case 4` arm
      have hgt3 : ¬ (hexDigits p).length ≤ 3 := fun hc =>
        h4096 (by have := (hexDigits_length_le_iff p 3 (by norm_num)).mp hc; norm_num at this; omega)
      have hlen : (hexDigits p).length = 4 := by omega
      have hd2 : ((hexDigits p).drop 2).length = 2 := by
        rw [List.length_drop, hlen]
      refine ⟨(fromHexDigits ((hexDigits p).take 2) : Int),
              (fromHexDigits ((hexDigits p).drop 2) : Int), ?_, ?_, fun hc => absurd hc h256⟩
      · rw [getSplitPorts_def]
        rw [if_neg (by omega), if_neg (by omega), if_pos (by omega), htoHex]
        rw [h2iVal_slice _ hlt 0 2 (by
            rw [List.drop_zero]
            have : ((hexDigits p).take 2).length = 2 := by
              rw [List.length_take]; omega
            intro hc; rw [hc] at this; simp at this) (by norm_num)]
        rw [h2iVal_slice _ hlt 2 4 (by
            show ((hexDigits p).drop 2).take 2 ≠ []
            rw [List.take_of_length_le (by omega)]
            intro hc; rw [hc] at hd2; simp at hd2) (by norm_num)]
        rw [List.drop_zero]
        rw [show (4 : Nat) - 2 = 2 from rfl, List.take_of_length_le (le_of_eq hd2)]
      · have happ := fromHexDigits_append ((hexDigits p).take 2) ((hexDigits p).drop 2)
        rw [List.take_append_drop, hval, hd2] at happ
        rw [show (16 : Nat) ^ 2 = 256 from by norm_num] at happ
        have hnat : fromHexDigits ((hexDigits p).take 2) * 256 +
            fromHexDigits ((hexDigits p).drop 2) = p := by omega
        exact_mod_cast hnat

/-- Core overflow computation: five or more hex digit characters reach
the `default` arm. -/
theorem getSplitPorts_err (p : Nat) (hp : 65535 < p) :
    getSplitPorts p = Except.error
      "The Port Number could not converted to the Parameter Format for the Listen Function." := by
  have hgt4 : ¬ (hexDigits p).length ≤ 4 := fun hc => by
    have := (hexDigits_length_le_iff p 4 (by norm_num)).mp hc
    norm_num at this; omega
  have htlen : (toHex p).length = (hexDigits p).length := by
    show ((hexDigits p).map hexChar).length = _
    exact List.length_map ..
  rw [getSplitPorts_def]
  rw [if_neg (by omega), if_neg (by omega), if_neg (by omega)]

/- ### Witness for C2 -/

/-- Witness for C2 at the concrete port 51213 (hex c80d, octets 200
and 13). -/
theorem getSplitPorts_roundtrip_witness :
    51213 ≤ 65535 ∧ ∃ p1 p2 : Int, getSplitPorts 51213 = Except.ok (p1, p2) ∧
      p1 * 256 + p2 = (51213 : Int) ∧ (51213 < 256 → p1 = 0) :=
  ⟨by norm_num, getSplitPorts_roundtrip 51213 (by norm_num)⟩

/- ### C3: overflow of the listen port -/

/-- C3: for every configured listen port above 65535 the active-mode
encoding fails with an error, and `port` propagates it, rather than
truncating or wrapping the value. -/
theorem activeListen_overflow_fails (p : Nat) (hp : 65535 < p) :
    getSplitPorts p = Except.error
      "The Port Number could not converted to the Parameter Format for the Listen Function." ∧
    ∀ (f : Ftp) (env : Env), f.params.listenPort = p →
      ∃ e, (port f env).2 = Except.error e := by
  refine ⟨getSplitPorts_err p hp, fun f env hlp => ?_⟩
  unfold port
  cases hL : env.localIP with
  | error e => exact ⟨e, rfl⟩
  | ok lip =>
    rw [hlp, getSplitPorts_err p hp]
    exact ⟨_, rfl⟩

/-- Witness for C3 at the concrete port 70000. -/
theorem activeListen_overflow_witness :
    65535 < 70000 ∧
    getSplitPorts 70000 = Except.error
      "The Port Number could not converted to the Parameter Format for the Listen Function." ∧
    ∃ e, (port overPortFtp okEnv).2 = Except.error e :=
  ⟨by norm_num, (activeListen_overflow_fails 70000 (by norm_num)).1,
    (activeListen_overflow_fails 70000 (by norm_num)).2 overPortFtp okEnv rfl⟩

/- ### C10: h2i swallows parse failures -/

/-- C10: for every input string that does not parse as a hexadecimal
integer, `h2i` returns result 0 with a nil error, and its error
component is nil on every input, so no caller can observe a hex-parse
failure. -/
theorem h2i_swallows_parse_errors (s : String) :
    (h2i s).2 = none ∧ (parseHexInt s = none → h2i s = (0, none)) := by
  unfold h2i
  cases hp : parseHexInt s <;> simp

/-- Witness for C10 at the non-hexadecimal input string `zz`. -/
theorem h2i_swallows_parse_errors_witness :
    parseHexInt "zz" = none ∧ h2i "zz" = (0, none) ∧ (h2i "zz").2 = none :=
  ⟨by decide, (h2i_swallows_parse_errors "zz").2 (by decide),
    (h2i_swallows_parse_errors "zz").1⟩

/- ### C1: the PASV port computation -/

/-- C1 (code bug): on the reply of the claim the port octets are 200
and 13; `ds2h` prints them as the hex strings c8 and d, and `h2i` of
their concatenation c8d is 3213 = 200*16 + 13, not 51213 = 200*256+13.
Run against an environment that accepts a data dial only at port 3213
of the resolved address, `pasv` succeeds: it computes and dials 3213
where the claim requires 51213. -/
theorem pasv_concat_port_bug :
    ds2h "200" = Except.ok "c8" ∧ ds2h "13" = Except.ok "d" ∧
    h2iVal ("c8" ++ "d") = 3213 ∧
    pasvResult plainFtp pasvLowOctetEnv =
      Outcome.ok (⟨"PASV", 227, "Entering Passive Mode (10,0,0,5,200,13)"⟩,
        DataChannel.conn 9) ∧
    (3213 : Int) ≠ 200 * 256 + 13 := by
  refine ⟨rfl, rfl, rfl, rfl, by decide⟩

/- ### C7: pasv on a reply without the six-number pattern -/

/-- C7 (code bug): on a `PASV` reply in which the six-number pattern
yields no match, `pasv` indexes the empty match set (`matches[0]`) and
panics instead of returning an error to its caller. -/
theorem pasv_no_match_panics :
    findSix "Entering Passive Mode." = none ∧
    pasvResult plainFtp pasvNoMatchEnv =
      Outcome.panic "runtime error: index out of range" :=
  ⟨rfl, rfl⟩

/- ### C9: the root-CA path -/

/-- C9 (code bug): with certificate, key and root-CA paths all
non-empty, the trust material is read from the fixed path
`./cert/rcaPem.pem` and not from the configured root-CA path: against
a file system holding only the configured file the assembly fails with
the fixed-path open error, and against one holding only the fixed file
it succeeds. -/
theorem getTLSConfig_fixed_root_path_bug :
    getTLSConfig customRootParams customRootOnlyEnv =
      Outcome.err "open ./cert/rcaPem.pem: no such file or directory" ∧
    getTLSConfig customRootParams fixedRootOnlyEnv =
      Outcome.ok ⟨some 5, some [], some [], false⟩ :=
  ⟨rfl, rfl⟩

/- ### Facts about the command engine and the operation wrappers -/

/-- On success, `Command` stamps the issued command text into the
response record. -/
theorem command_ok_command (env : Env) (cmd : String) (code : Nat)
    (r : FtpResponse) (h : command env cmd code = Except.ok r) :
    r.command = cmd := by
  unfold command at h
  cases he : env.exec cmd code with
  | error e => rw [he] at h; cases h
  | ok cm => rw [he] at h; cases h; rfl

/-- A string that extends a prefix longer than four characters is not
the string QUIT. -/
theorem quit_ne_of_append (a t : String) (ha : 4 < a.length) : a ++ t ≠ "QUIT" := by
  intro h
  have hlen := congrArg String.length h
  rw [String.length_append] at hlen
  rw [show ("QUIT" : String).length = 4 from rfl] at hlen
  omega

theorem withQuit_keepAlive {α : Type} (f : Ftp) (env : Env) (b : OpOut α)
    (hka : f.params.keepAlive = true) : withQuit f env b = b := by
  unfold withQuit
  rw [hka]
  simp

theorem withQuit_of_panic {α : Type} (f : Ftp) (env : Env) (b : OpOut α)
    (m : String) (hka : f.params.keepAlive = false)
    (hb : b.fail = Outcome.panic m) :
    withQuit f env b =
      ⟨b.ftp, b.trace ++ ["QUIT"], b.res, b.val, Outcome.panic m⟩ := by
  unfold withQuit
  rw [hka, hb]
  rfl

theorem withQuit_of_quit_err {α : Type} (f : Ftp) (env : Env) (b : OpOut α)
    (e : String) (hka : f.params.keepAlive = false)
    (hnp : ∀ m, b.fail ≠ Outcome.panic m)
    (hq : quit env = Except.error e) :
    withQuit f env b =
      ⟨b.ftp, b.trace ++ ["QUIT"], b.res, b.val, Outcome.err e⟩ := by
  cases hb : b.fail with
  | panic m => exact absurd hb (hnp m)
  | err e2 => unfold withQuit; rw [hka, hb, hq]; rfl
  | ok u => unfold withQuit; rw [hka, hb, hq]; rfl

theorem withQuit_of_quit_ok {α : Type} (f : Ftp) (env : Env) (b : OpOut α)
    (r : FtpResponse) (hka : f.params.keepAlive = false)
    (hnp : ∀ m, b.fail ≠ Outcome.panic m)
    (hq : quit env = Except.ok r) :
    withQuit f env b =
      ⟨b.ftp, b.trace ++ ["QUIT"], b.res ++ [r], b.val, Outcome.ok ()⟩ := by
  cases hb : b.fail with
  | panic m => exact absurd hb (hnp m)
  | err e2 => unfold withQuit; rw [hka, hb, hq]; rfl
  | ok u => unfold withQuit; rw [hka, hb, hq]; rfl

/-- With keep-alive off, every successful wrapped operation ends its
response list with the response of the `QUIT` exchange. -/
theorem withQuit_quit_last {α : Type} (f : Ftp) (env : Env) (b : OpOut α)
    (hka : f.params.keepAlive = false)
    (hok : (withQuit f env b).fail = Outcome.ok ()) :
    ∃ rs r, (withQuit f env b).res = rs ++ [r] ∧ r.command = "QUIT" := by
  cases hb : b.fail with
  | panic m =>
    rw [withQuit_of_panic f env b m hka hb] at hok
    simp at hok
  | err e =>
    cases hq : quit env with
    | error e2 =>
      rw [withQuit_of_quit_err f env b e2 hka
        (fun m hm => by rw [hb] at hm; cases hm) hq] at hok
      simp at hok
    | ok r =>
      rw [withQuit_of_quit_ok f env b r hka
        (fun m hm => by rw [hb] at hm; cases hm) hq]
      exact ⟨b.res, r, rfl, command_ok_command env "QUIT" 221 r hq⟩
  | ok u =>
    cases hq : quit env with
    | error e2 =>
      rw [withQuit_of_quit_err f env b e2 hka
        (fun m hm => by rw [hb] at hm; cases hm) hq] at hok
      simp at hok
    | ok r =>
      rw [withQuit_of_quit_ok f env b r hka
        (fun m hm => by rw [hb] at hm; cases hm) hq]
      exact ⟨b.res, r, rfl, command_ok_command env "QUIT" 221 r hq⟩

theorem port_trace (f : Ftp) (env : Env) :
    (port f env).1 = [] ∨ ∃ lip pp, (port f env).1 = [portCmd lip pp] := by
  unfold port
  repeat' split
  all_goals first
    | exact Or.inl rfl
    | exact Or.inr ⟨_, _, rfl⟩

theorem negotiate_fst (f : Ftp) (env : Env) :
    (negotiate f env).1 =
      if f.params.passive then ["PASV"] else (port f env).1 := by
  unfold negotiate
  by_cases hp : f.params.passive = true
  · rw [if_pos hp, if_pos hp]; rfl
  · rw [if_neg hp, if_neg hp]
    rcases hpe : port f env with ⟨tr, r⟩
    cases r <;> rfl

theorem opBody_trace {α : Type} (f : Ftp) (env : Env) (cmd : String)
    (dflt : α) (step : DataChannel → Outcome (FtpResponse × α)) (s : String)
    (hs : s ∈ (opBody f env cmd dflt step).trace) :
    s ∈ (negotiate f env).1 ∨ s = cmd := by
  unfold opBody at hs
  rcases hne : negotiate f env with ⟨tr, out⟩
  rw [hne] at hs
  show s ∈ tr ∨ s = cmd
  cases out with
  | err e => exact Or.inl (by simpa using hs)
  | panic m => exact Or.inl (by simpa using hs)
  | ok rc =>
    rcases rc with ⟨r1, itf⟩
    simp only [] at hs
    cases h2 : command env cmd 150 with
    | error e =>
      rw [h2] at hs
      simpa using hs
    | ok r2 =>
      rw [h2] at hs
      cases h3 : step itf with
      | err e =>
        rw [h3] at hs
        simpa using hs
      | panic m =>
        rw [h3] at hs
        simpa using hs
      | ok rl =>
        rw [h3] at hs
        simpa using hs

theorem opBody_ftp {α : Type} (f : Ftp) (env : Env) (cmd : String)
    (dflt : α) (step : DataChannel → Outcome (FtpResponse × α)) :
    (opBody f env cmd dflt step).ftp = f := by
  unfold opBody
  repeat' split
  all_goals rfl

theorem withQuit_ftp {α : Type} (f : Ftp) (env : Env) (b : OpOut α) :
    (withQuit f env b).ftp = b.ftp := by
  unfold withQuit
  repeat' split
  all_goals rfl

theorem auth_ftp (f : Ftp) (env : Env) : (auth f env).ftp = f := by
  simp only [auth]
  repeat' split
  all_goals rfl

theorem options_ftp (f : Ftp) (env : Env) : (options f env).ftp = f := by
  simp only [options]
  repeat' split
  all_goals rfl

theorem connect_state (f : Ftp) (env : Env) :
    ((connect f env).1 = f ∧ ∀ r, (connect f env).2 ≠ Outcome.ok r) ∨
      ((connect f env).1.State = ONLINE ∧ ∃ r, (connect f env).2 = Outcome.ok r) := by
  unfold connect
  repeat' split
  all_goals first
    | (left; exact ⟨rfl, fun r h => by simp at h⟩)
    | (right; exact ⟨rfl, _, rfl⟩)

/- ### C4: the authentication sequence -/

/-- C4: in every session in which all issued steps succeed, `auth`
returns exactly the `AUTH TLS`, `USER`, `PASS` responses in that order
when security is enabled with explicit mode, and exactly the `USER`,
`PASS` responses in that order otherwise. -/
theorem auth_response_sequence (f : Ftp) (env : Env)
    (h : (auth f env).fail = Outcome.ok ()) :
    ((f.params.secure = true ∧ f.params.secureMode = EXPLICIT) →
      (auth f env).res.map FtpResponse.command =
        ["AUTH TLS", "USER " ++ f.params.user, "PASS " ++ f.params.pass]) ∧
    (¬(f.params.secure = true ∧ f.params.secureMode = EXPLICIT) →
      (auth f env).res.map FtpResponse.command =
        ["USER " ++ f.params.user, "PASS " ++ f.params.pass]) := by
  by_cases hc : f.params.secure = true ∧ f.params.secureMode = EXPLICIT
  · refine ⟨fun _ => ?_, fun hn => absurd hc hn⟩
    simp only [auth, if_pos hc] at h ⊢
    cases h1 : command env "AUTH TLS" 234 with
    | error e => simp only [h1] at h; cases h
    | ok r1 =>
      simp only [h1] at h ⊢
      cases h2 : secureUpgrade f.params env with
      | err e => simp only [h2] at h; cases h
      | panic m => simp only [h2] at h; cases h
      | ok u =>
        simp only [h2] at h ⊢
        cases h3 : command env ("USER " ++ f.params.user) 331 with
        | error e => simp only [h3] at h; cases h
        | ok r2 =>
          simp only [h3] at h ⊢
          cases h4 : command env ("PASS " ++ f.params.pass) 230 with
          | error e => simp only [h4] at h; cases h
          | ok r3 =>
            simp only [h4] at h ⊢
            simp [command_ok_command env _ _ r1 h1,
              command_ok_command env _ _ r2 h3,
              command_ok_command env _ _ r3 h4]
  · refine ⟨fun hx => absurd hx hc, fun _ => ?_⟩
    simp only [auth, if_neg hc] at h ⊢
    cases h3 : command env ("USER " ++ f.params.user) 331 with
    | error e => simp only [h3] at h; cases h
    | ok r2 =>
      simp only [h3] at h ⊢
      cases h4 : command env ("PASS " ++ f.params.pass) 230 with
      | error e => simp only [h4] at h; cases h
      | ok r3 =>
        simp only [h4] at h ⊢
        simp [command_ok_command env _ _ r2 h3,
          command_ok_command env _ _ r3 h4]

/-- Witness for C4: an explicit-secure session against an
all-accepting server. -/
theorem auth_response_sequence_witness :
    (auth explicitFtp okEnv).fail = Outcome.ok () ∧
    (auth explicitFtp okEnv).res.map FtpResponse.command =
      ["AUTH TLS", "USER alice", "PASS secret"] :=
  ⟨by decide, (auth_response_sequence explicitFtp okEnv (by decide)).1 (by decide)⟩

/- ### C5: the option negotiation sequence -/

/-- C5: in every session in which all issued commands succeed,
`options` issues `SYST`, `FEAT`, `OPTS UTF8 ON`, then `PROT P` exactly
when security is enabled, and `TYPE I` always comes last. -/
theorem options_command_sequence (f : Ftp) (env : Env)
    (h : (options f env).fail = Outcome.ok ()) :
    (options f env).res.map FtpResponse.command =
      ["SYST", "FEAT", "OPTS UTF8 ON"] ++
        (if f.params.secure then ["PROT P", "TYPE I"] else ["TYPE I"]) := by
  simp only [options] at h ⊢
  cases h1 : command env "SYST" 215 with
  | error e => simp only [h1] at h; cases h
  | ok r1 =>
    simp only [h1] at h ⊢
    cases h2 : command env "FEAT" 211 with
    | error e => simp only [h2] at h; cases h
    | ok r2 =>
      simp only [h2] at h ⊢
      cases h3 : command env "OPTS UTF8 ON" 200 with
      | error e => simp only [h3] at h; cases h
      | ok r3 =>
        simp only [h3] at h ⊢
        cases hs : f.params.secure with
        | true =>
          simp only [hs, if_true] at h ⊢
          cases h4 : command env "PROT P" 200 with
          | error e => simp only [h4] at h; cases h
          | ok r4 =>
            simp only [h4] at h ⊢
            cases h5 : command env "TYPE I" 200 with
            | error e => simp only [h5] at h; cases h
            | ok r5 =>
              simp only [h5] at h ⊢
              simp [command_ok_command env _ _ r1 h1,
                command_ok_command env _ _ r2 h2,
                command_ok_command env _ _ r3 h3,
                command_ok_command env _ _ r4 h4,
                command_ok_command env _ _ r5 h5]
        | false =>
          simp only [hs, if_false] at h ⊢
          cases h5 : command env "TYPE I" 200 with
          | error e => simp only [h5] at h; cases h
          | ok r5 =>
            simp only [h5] at h ⊢
            simp [command_ok_command env _ _ r1 h1,
              command_ok_command env _ _ r2 h2,
              command_ok_command env _ _ r3 h3,
              command_ok_command env _ _ r5 h5]

/-- Witness for C5: a secure session against an all-accepting
server. -/
theorem options_command_sequence_witness :
    (options explicitFtp okEnv).fail = Outcome.ok () ∧
    (options explicitFtp okEnv).res.map FtpResponse.command =
      ["SYST", "FEAT", "OPTS UTF8 ON", "PROT P", "TYPE I"] :=
  ⟨by decide, by
    have h := options_command_sequence explicitFtp okEnv (by decide)
    simpa using h⟩

/- ### C6: the QUIT discipline of list, download and upload -/

/-- C6: with keep-alive off, every successful `list` / `download` /
`upload` run appends the `QUIT` response as its final element; with
keep-alive on these operations never issue a `QUIT` exchange. -/
theorem ops_quit_discipline (f : Ftp) (env : Env) (pth lp rp : String) :
    (f.params.keepAlive = false →
      (((list f env pth).fail = Outcome.ok () →
          ∃ rs r, (list f env pth).res = rs ++ [r] ∧ r.command = "QUIT") ∧
        ((download f env lp rp).fail = Outcome.ok () →
          ∃ rs r, (download f env lp rp).res = rs ++ [r] ∧ r.command = "QUIT") ∧
        ((upload f env lp rp).fail = Outcome.ok () →
          ∃ rs r, (upload f env lp rp).res = rs ++ [r] ∧ r.command = "QUIT"))) ∧
    (f.params.keepAlive = true →
      ("QUIT" ∉ (list f env pth).trace ∧
        "QUIT" ∉ (download f env lp rp).trace ∧
        "QUIT" ∉ (upload f env lp rp).trace)) := by
  constructor
  · intro hka
    exact ⟨fun hok => withQuit_quit_last f env _ hka hok,
      fun hok => withQuit_quit_last f env _ hka hok,
      fun hok => withQuit_quit_last f env _ hka hok⟩
  · intro hka
    have key : ∀ (cmd : String), 4 < cmd.length →
        ∀ {α : Type} (dflt : α) (step : DataChannel → Outcome (FtpResponse × α)),
          "QUIT" ∉ (opBody f env cmd dflt step).trace := by
      intro cmd hlen α dflt step hmem
      rcases opBody_trace f env cmd dflt step _ hmem with h | h
      · rw [negotiate_fst] at h
        by_cases hp : f.params.passive = true
        · rw [if_pos hp] at h
          exact absurd (List.mem_singleton.mp h) (by decide)
        · rw [if_neg hp] at h
          rcases port_trace f env with h0 | ⟨lip, pp, h0⟩
          · rw [h0] at h; cases h
          · rw [h0] at h
            have heq := List.mem_singleton.mp h
            simp only [portCmd] at heq
            exact quit_ne_of_append "PORT " _ (by decide) heq.symm
      · have hL := congrArg String.length h
        rw [show ("QUIT" : String).length = 4 from rfl] at hL
        omega
    have hlist : 4 < ("LIST -aL " ++ pth).length := by
      rw [String.length_append]
      rw [show ("LIST -aL " : String).length = 9 from rfl]
      omega
    have hretr : 4 < ("RETR " ++ rp).length := by
      rw [String.length_append]
      rw [show ("RETR " : String).length = 5 from rfl]
      omega
    have hstor : 4 < ("STOR " ++ rp).length := by
      rw [String.length_append]
      rw [show ("STOR " : String).length = 5 from rfl]
      omega
    refine ⟨?_, ?_, ?_⟩
    · simp only [list]
      rw [withQuit_keepAlive f env _ hka]
      simp only [listBody]
      exact key _ hlist _ _
    · simp only [download]
      rw [withQuit_keepAlive f env _ hka]
      simp only [downloadBody]
      exact key _ hretr _ _
    · simp only [upload]
      rw [withQuit_keepAlive f env _ hka]
      simp only [uploadBody]
      exact key _ hstor _ _

/-- Witness for C6: with keep-alive off, a fully successful `list` run
ends with the `QUIT` response. -/
theorem ops_quit_discipline_witness :
    plainFtp.params.keepAlive = false ∧
    (list plainFtp okEnv "dir").fail = Outcome.ok () ∧
    ∃ rs r, (list plainFtp okEnv "dir").res = rs ++ [r] ∧ r.command = "QUIT" :=
  ⟨rfl, by decide,
    ((ops_quit_discipline plainFtp okEnv "dir" "a" "b").1 rfl).1 (by decide)⟩

/- ### C8: the session state lifecycle -/

/-- C8: a new session starts `OFFLINE`; `connect` moves the state to
`ONLINE` exactly on a successful greeting and leaves the record
unchanged on every failure; no operation moves the state back. -/
theorem session_state_lifecycle (p : ftpParameters) (f : Ftp) (env : Env) :
    (newFtp p).State = OFFLINE ∧
    (∀ r, (connect f env).2 = Outcome.ok r → (connect f env).1.State = ONLINE) ∧
    ((∀ r, (connect f env).2 ≠ Outcome.ok r) → (connect f env).1 = f) ∧
    (auth f env).ftp.State = f.State ∧
    (options f env).ftp.State = f.State ∧
    (∀ s, (list f env s).ftp.State = f.State) ∧
    (∀ a b, (download f env a b).ftp.State = f.State) ∧
    (∀ a b, (upload f env a b).ftp.State = f.State) := by
  refine ⟨rfl, ?_, ?_, by rw [auth_ftp], by rw [options_ftp],
    fun s => ?_, fun a b => ?_, fun a b => ?_⟩
  · intro r hr
    rcases connect_state f env with ⟨h1, h2⟩ | ⟨h1, h2⟩
    · exact absurd hr (h2 r)
    · exact h1
  · intro hn
    rcases connect_state f env with ⟨h1, h2⟩ | ⟨h1, r0, h2⟩
    · exact h1
    · exact absurd h2 (hn r0)
  · simp only [list, withQuit_ftp, listBody, opBody_ftp]
  · simp only [download, withQuit_ftp, downloadBody, opBody_ftp]
  · simp only [upload, withQuit_ftp, uploadBody, opBody_ftp]

/-- Witness for C8: a concrete session starts `OFFLINE` and a
successful `connect` moves it `ONLINE`. -/
theorem session_state_lifecycle_witness :
    (newFtp plainParams).State = OFFLINE ∧
    (connect (newFtp plainParams) okEnv).1.State = ONLINE :=
  ⟨(session_state_lifecycle plainParams (newFtp plainParams) okEnv).1,
    (session_state_lifecycle plainParams (newFtp plainParams) okEnv).2.1
      ⟨"", 220, "ok"⟩ (by decide)⟩

end Sftps
